import Mathlib

/-!
Shallow embedding of the fighter-state subsystem of the `punchy` brawler
(`src/fighter_state.rs`): the state-transition intent queue and its resolver,
the intent collectors, and the per-state handler systems, together with
theorems settling the specification's testable properties against this code.

Machine floating-point values (positions, velocities, timers) are modelled as
rationals; entity identifiers as naturals.
-/

/-- Entity identifier (bevy `Entity`). -/
abbrev Entity := Nat

/-- Two-dimensional vector (`bevy::math::Vec2`), components as rationals. -/
structure Vec2 where
  x : ℚ
  y : ℚ
deriving DecidableEq, Repr

/-- `Vec2::ZERO`. -/
def Vec2.zero : Vec2 := ⟨0, 0⟩

/-- Componentwise scaling, `direction * scalar`. -/
def Vec2.scale (v : Vec2) (s : ℚ) : Vec2 := ⟨v.x * s, v.y * s⟩

/-- `bevy::time::Timer` as used here: `Timer::from_seconds(d, TimerMode::Once)`
creates a one-shot timer with the given duration and zero elapsed time. -/
structure Timer where
  duration : ℚ
  elapsed : ℚ
deriving DecidableEq, Repr

/-- `Timer::from_seconds(d, TimerMode::Once)`. -/
def Timer.from_seconds (d : ℚ) : Timer := ⟨d, 0⟩

/-- `crate::animation::Facing`. -/
inductive Facing where
  | left
  | right
deriving DecidableEq, Repr

/-- `Facing::is_left`. -/
def Facing.is_left : Facing → Bool
  | .left => true
  | .right => false

/-- Modelled from the spec: the per-entity animation track
(`crate::animation::Animation`, whose source file is not part of the provided
slice).  Per section 6 it exposes `play(name, repeat)` (starts the named clip
from frame 0, not finished), the current frame index, the current clip name,
and `is_finished()`. -/
structure Animation where
  current_animation : Option String
  current_frame : Nat
  finished : Bool
  repeating : Bool
deriving DecidableEq, Repr

/-- Modelled from the spec: `Animation::play(name, repeating)` starts the named
clip from frame 0 in a non-finished state. -/
def Animation.play (_a : Animation) (name : String) (repeating : Bool) : Animation :=
  ⟨some name, 0, false, repeating⟩

/-- Modelled from the spec: `Animation::is_finished()`. -/
def Animation.is_finished (a : Animation) : Bool := a.finished

/-- A fresh animation track with no clip playing. -/
def Animation.fresh : Animation := ⟨none, 0, false, false⟩

/-- Named frame-window boundaries of an attack (`AttackFrames` metadata:
startup / active / recovery frame indices). -/
structure AttackFrames where
  startup : Nat
  active : Nat
  recovery : Nat
deriving DecidableEq, Repr

/-- Attack metadata (`crate::metadata::AttackMeta`): the fields read by the
fighter-state handlers. -/
structure AttackMeta where
  name : String
  damage : Int
  velocity : Option Vec2
  frames : AttackFrames
  hitbox_offset : Vec2
  hitstun_duration : ℚ
  item_handle : Nat
deriving DecidableEq, Repr

/-- `crate::metadata::ItemKind`: the tagged union of item kinds, with the
payload fields the fighter-state handlers read. -/
inductive ItemKind where
  | throwable
  | script (script_handle : Nat)
  | breakableBox (item_handle : Nat)
  | meleeWeapon (attack : AttackMeta)
  | projectileWeapon (attack : AttackMeta) (ammo : Nat) (shoot_delay : ℚ)
  | bomb (lifetime : ℚ) (gravity : ℚ) (throw_velocity : Vec2)
deriving DecidableEq, Repr

/-- `crate::metadata::ItemMeta` restricted to its kind tag. -/
structure ItemMeta where
  kind : ItemKind
deriving DecidableEq, Repr

/-- `crate::metadata::FighterMeta`: the fields the handlers read
(`collision_offset` and the audio effect-handle map, modelled as the list of
animation names that have sound effects). -/
structure FighterMeta where
  collision_offset : ℚ
  audio_effects : List String
deriving DecidableEq, Repr

--
-- Fighter state components (`fighter_state.rs` lines 196-366)
--

/-- `Moving` state component: carries the requested velocity. -/
structure Moving where
  velocity : Vec2
deriving DecidableEq, Repr

/-- `Flopping` state component. -/
structure Flopping where
  start_y : ℚ
  has_started : Bool
  is_finished : Bool
deriving DecidableEq, Repr

/-- `Flopping::default()`. -/
def Flopping.default : Flopping := ⟨0, false, false⟩

/-- `GroundSlam` state component. -/
structure GroundSlam where
  start_y : ℚ
  has_started : Bool
  is_finished : Bool
deriving DecidableEq, Repr

/-- `BossBombThrow` state component. -/
structure BossBombThrow where
  has_started : Bool
  is_finished : Bool
  thrown : Bool
deriving DecidableEq, Repr

/-- `Punching` state component. -/
structure Punching where
  has_started : Bool
  is_finished : Bool
deriving DecidableEq, Repr

/-- `Punching::default()`. -/
def Punching.default : Punching := ⟨false, false⟩

/-- `Chaining` state component. -/
structure Chaining where
  has_started : Bool
  continue_chain : Bool
  can_extend : Bool
  transition_to_final : Bool
  transition_to_idle : Bool
  link : Nat
deriving DecidableEq, Repr

/-- `Chaining::default()`. -/
def Chaining.default : Chaining := ⟨false, false, false, false, false, 0⟩

/-- `MeleeAttacking` state component. -/
structure MeleeAttacking where
  has_started : Bool
  is_finished : Bool
deriving DecidableEq, Repr

/-- `MeleeAttacking::default()`. -/
def MeleeAttacking.default : MeleeAttacking := ⟨false, false⟩

/-- `Shooting` state component. -/
structure Shooting where
  has_started : Bool
  is_finished : Bool
  spawned_bullet : Bool
deriving DecidableEq, Repr

/-- `Shooting::default()`. -/
def Shooting.default : Shooting := ⟨false, false, false⟩

/-- `ProjectileAttacking` state component. -/
structure ProjectileAttacking where
  has_started : Bool
  is_finished : Bool
  thrown : Bool
deriving DecidableEq, Repr

/-- `HitStun` state component: pushback vector and countdown timer. -/
structure HitStun where
  pushback : Vec2
  timer : Timer
deriving DecidableEq, Repr

/-- The closed union of fighter state components that a `StateTransition`
can target (the runtime reflective component payload). -/
inductive FighterState where
  | idlingS
  | movingS (m : Moving)
  | throwingS
  | grabbingS
  | floppingS (f : Flopping)
  | groundSlamS (g : GroundSlam)
  | bossBombThrowS (b : BossBombThrow)
  | punchingS (p : Punching)
  | chainingS (c : Chaining)
  | meleeAttackingS (m : MeleeAttacking)
  | shootingS (s : Shooting)
  | projectileAttackingS (p : ProjectileAttacking)
  | holdingS
  | hitStunS (h : HitStun)
  | dyingS
deriving DecidableEq, Repr

/-- The component *type* tag of each fighter state (the `CurrentState` type
parameter of the transition systems). -/
inductive StateTag where
  | idling
  | moving
  | throwing
  | grabbing
  | flopping
  | groundSlam
  | bossBombThrow
  | punching
  | chaining
  | meleeAttacking
  | shooting
  | projectileAttacking
  | holding
  | hitStun
  | dying
deriving DecidableEq, Repr

/-- `Idling::PRIORITY`. -/
def Idling.PRIORITY : Int := 0
/-- `Idling::ANIMATION`. -/
def Idling.ANIMATION : String := "idle"
/-- `Moving::PRIORITY`. -/
def Moving.PRIORITY : Int := 10
/-- `Moving::ANIMATION`. -/
def Moving.ANIMATION : String := "running"
/-- `Throwing::PRIORITY`. -/
def Throwing.PRIORITY : Int := 15
/-- `Grabbing::PRIORITY` (defined in the source as `Throwing::PRIORITY`). -/
def Grabbing.PRIORITY : Int := Throwing.PRIORITY
/-- `Flopping::PRIORITY`. -/
def Flopping.PRIORITY : Int := 30
/-- `Flopping::ANIMATION`. -/
def Flopping.ANIMATION : String := "attacking"
/-- `GroundSlam::PRIORITY`. -/
def GroundSlam.PRIORITY : Int := 30
/-- `GroundSlam::ANIMATION`. -/
def GroundSlam.ANIMATION : String := "attacking"
/-- `BossBombThrow::PRIORITY`. -/
def BossBombThrow.PRIORITY : Int := 30
/-- `BossBombThrow::ANIMATION`. -/
def BossBombThrow.ANIMATION : String := "bomb_throw"
/-- `Punching::PRIORITY`. -/
def Punching.PRIORITY : Int := 30
/-- `Punching::ANIMATION`. -/
def Punching.ANIMATION : String := "attacking"
/-- `Chaining::PRIORITY`. -/
def Chaining.PRIORITY : Int := 30
/-- `Chaining::ANIMATION`. -/
def Chaining.ANIMATION : String := "chaining"
/-- `Chaining::FOLLOWUP_ANIMATION`. -/
def Chaining.FOLLOWUP_ANIMATION : String := "followup"
/-- `Chaining::LENGTH`: the fixed combo length. -/
def Chaining.LENGTH : Nat := 2
/-- `MeleeAttacking::PRIORITY`. -/
def MeleeAttacking.PRIORITY : Int := 30
/-- `MeleeAttacking::ANIMATION`. -/
def MeleeAttacking.ANIMATION : String := "slashing"
/-- `Shooting::PRIORITY`. -/
def Shooting.PRIORITY : Int := 30
/-- `Shooting::ANIMATION`. -/
def Shooting.ANIMATION : String := "shooting"
/-- `ProjectileAttacking::PRIORITY`. -/
def ProjectileAttacking.PRIORITY : Int := 30
/-- `ProjectileAttacking::ANIMATION`. -/
def ProjectileAttacking.ANIMATION : String := "attacking"
/-- `Holding::PRIORITY`. -/
def Holding.PRIORITY : Int := 35
/-- `HitStun::PRIORITY`. -/
def HitStun.PRIORITY : Int := 40
/-- `Dying::PRIORITY`. -/
def Dying.PRIORITY : Int := 1000
/-- `Dying::ANIMATION`. -/
def Dying.ANIMATION : String := "dying"

--
-- State transitions and the intent queue (`fighter_state.rs` lines 99-190)
--

/-- `StateTransition`: a pending transition request carrying the target state
payload, a priority, and the additive flag. -/
structure StateTransition where
  target : FighterState
  priority : Int
  is_additive : Bool
deriving DecidableEq, Repr

/-- `StateTransitionIntents`: the per-fighter queue of pending transitions. -/
structure StateTransitionIntents where
  queue : List StateTransition
deriving DecidableEq, Repr

/-- The descending-priority order used by
`transitions.sort_by(|a, b| b.priority.cmp(&a.priority))`. -/
def prioGE (a b : StateTransition) : Prop := b.priority ≤ a.priority

instance : DecidableRel prioGE :=
  fun a b => inferInstanceAs (Decidable (b.priority ≤ a.priority))

instance : IsTotal StateTransition prioGE :=
  ⟨fun a b => le_total b.priority a.priority⟩

instance : IsTrans StateTransition prioGE :=
  ⟨fun _ _ _ h1 h2 => le_trans h2 h1⟩

/-- The stable descending-priority sort of the drained intents
(`transitions.sort_by(|a, b| b.priority.cmp(&a.priority))`; Rust's `sort_by`
is stable, as is insertion sort). -/
def sortIntents (l : List StateTransition) : List StateTransition :=
  List.insertionSort prioGE l

/-- The scanning loop of `transition_to_higher_priority_states` over the
sorted transitions: each intent whose priority strictly exceeds the current
state's priority is applied (collected, in order, into the first component);
the scan stops at the first non-additive application and reports `true`. -/
def applyIntents (current_state_priority : Int) :
    List StateTransition → List StateTransition × Bool
  | [] => ([], false)
  | intent :: rest =>
    if current_state_priority < intent.priority then
      if intent.is_additive then
        let r := applyIntents current_state_priority rest
        (intent :: r.1, r.2)
      else
        ([intent], true)
    else
      applyIntents current_state_priority rest

/-- Outcome of one resolve call: the queue contents after the drain, the
transitions applied to the entity in application order, and the returned flag
(`true` when a non-additive transition removed the current state). -/
structure ResolveOutcome where
  queue_after : List StateTransition
  applied : List StateTransition
  replaced : Bool
deriving DecidableEq, Repr

/-- `StateTransitionIntents::transition_to_higher_priority_states`: drains the
whole queue, sorts descending by priority, applies every intent that exceeds
the current state's priority until the first non-additive application. -/
def transition_to_higher_priority_states (q : StateTransitionIntents)
    (current_state_priority : Int) : ResolveOutcome :=
  let transitions := sortIntents q.queue
  let r := applyIntents current_state_priority transitions
  ⟨[], r.1, r.2⟩

--
-- The plugin's registered transition systems (`FighterStatePlugin::build`,
-- lines 57-74): one `transition_from_*` system per listed state.
--

/-- The state components for which `FighterStatePlugin::build` registers a
transition system (PreUpdate, after the collect systems).  Note that no
transition system is registered for `Moving` or `Dying` (nor for the additive
`Throwing`/`Grabbing`/`Holding` components). -/
def transitionSystems : List StateTag :=
  [.idling, .chaining, .flopping, .punching, .groundSlam, .hitStun,
   .meleeAttacking, .shooting, .bossBombThrow, .projectileAttacking]

/-- Whether a fighter whose current state component has the given tag has a
transition system that resolves its intent queue each tick. -/
def hasTransitionSystem (tag : StateTag) : Bool :=
  transitionSystems.contains tag

/-- Per-tick fate of a fighter's intent queue as a function of its current
state component: states with a registered transition system get the queue
drained (`drain(..)` empties it); a state with no transition system leaves the
queue untouched. -/
def tickResolveQueue (tag : StateTag) (q : StateTransitionIntents) :
    StateTransitionIntents :=
  if hasTransitionSystem tag then ⟨[]⟩ else q

--
-- Intent collectors (`fighter_state.rs` lines 376-515)
--

/-- A damage event (`crate::damage::DamageEvent`): the fields read by
`collect_hitstuns`. -/
structure DamageEvent where
  damaged_entity : Entity
  damage_velocity : Vec2
  hitstun_duration : ℚ
deriving DecidableEq, Repr

/-- The `HitStun` transition pushed by `collect_hitstuns` for a damage event:
pushback is the event's knockback vector, the timer is a one-shot timer of the
event's hitstun duration, priority `HitStun::PRIORITY`, non-additive. -/
def hitstunTransition (ev : DamageEvent) : StateTransition :=
  ⟨.hitStunS ⟨ev.damage_velocity, Timer.from_seconds ev.hitstun_duration⟩,
   HitStun.PRIORITY, false⟩

/-- `collect_hitstuns`: for each damage event whose damaged entity is a
fighter, skip it when its hitstun duration is `0.0`, otherwise push a
`HitStun` transition onto that fighter's intent queue. -/
def collect_hitstuns (isFighter : Entity → Bool)
    (queues : Entity → List StateTransition) (events : List DamageEvent) :
    Entity → List StateTransition :=
  events.foldl
    (fun qs ev =>
      if isFighter ev.damaged_entity then
        if ev.hitstun_duration = 0 then qs
        else fun e =>
          if e = ev.damaged_entity then qs e ++ [hitstunTransition ev] else qs e
      else qs)
    queues

/-- The `Dying` transition pushed by `collect_fighter_eliminations`. -/
def dyingTransition : StateTransition :=
  ⟨.dyingS, Dying.PRIORITY, false⟩

/-- `collect_fighter_eliminations` for one fighter: when health is depleted,
push a `Dying` transition at priority 1000, non-additive. -/
def collect_fighter_eliminations (health : Int) (q : List StateTransition) :
    List StateTransition :=
  if health ≤ 0 then q ++ [dyingTransition] else q

/-- The per-fighter input signals read by `collect_player_actions`
(`ActionState<PlayerAction>`). -/
structure ActionState where
  attack_just_pressed : Bool
  throw_just_pressed : Bool
  move_pressed : Bool
  move_direction : Vec2
deriving DecidableEq, Repr

/-- `collect_player_actions` for one player: maps the input signals to pushed
transition intents (and, when already chaining, flags `continue_chain` on the
existing `Chaining` component instead of pushing an intent).  Arguments mirror
the queried components: the action state, whether a `Holding` component is
present, the optional `Chaining` component, the inventory slot, the fighter's
movement speed and the name of the current (top-of-stack) available attack.
Returns the updated queue and the updated `Chaining` component. -/
def collect_player_actions (action_state : ActionState) (holding : Bool)
    (chaining : Option Chaining) (inventory : Option ItemMeta)
    (movement_speed : ℚ) (current_attack_name : String)
    (q : List StateTransition) : List StateTransition × Option Chaining :=
  let (q, chaining) :=
    if action_state.attack_just_pressed && !holding then
      match chaining with
      | none =>
        (if current_attack_name = "chain" then
           q ++ [⟨.chainingS Chaining.default, Chaining.PRIORITY, false⟩]
         else if current_attack_name = "punch" then
           q ++ [⟨.punchingS Punching.default, Punching.PRIORITY, false⟩]
         else if current_attack_name = "flop" then
           q ++ [⟨.floppingS Flopping.default, Flopping.PRIORITY, false⟩]
         else if current_attack_name = "melee" then
           q ++ [⟨.meleeAttackingS MeleeAttacking.default,
                  MeleeAttacking.PRIORITY, false⟩]
         else if current_attack_name = "projectile" then
           q ++ [⟨.shootingS Shooting.default, Shooting.PRIORITY, false⟩]
         else q,
         none)
      | some c => (q, some { c with continue_chain := true })
    else (q, chaining)
  let q :=
    if action_state.throw_just_pressed then
      if inventory.isSome then
        q ++ [⟨.throwingS, Throwing.PRIORITY, true⟩]
      else
        q ++ [⟨.grabbingS, Grabbing.PRIORITY, true⟩]
    else q
  let q :=
    if action_state.move_pressed then
      q ++ [⟨.movingS ⟨action_state.move_direction.scale movement_speed⟩,
             Moving.PRIORITY, false⟩]
    else q
  (q, chaining)

--
-- State handlers (`fighter_state.rs` lines 792-2208)
--

/-- Output of the `idling` handler for one fighter: play the idle animation if
not already playing, and zero the velocity. -/
def idling (anim : Animation) : Animation × Vec2 :=
  let anim :=
    if anim.current_animation ≠ some Idling.ANIMATION then
      anim.play Idling.ANIMATION true
    else anim
  (anim, Vec2.zero)

/-- Output of the `moving` handler for one fighter. -/
structure MovingOut where
  /-- The state component the handler leaves on the fighter: it removes
  `Moving` and inserts `Idling` at the end of every tick it runs. -/
  state_inserted : StateTag
  animation : Animation
  facing : Facing
  velocity : Vec2
deriving DecidableEq, Repr

/-- The `moving` handler: play the running animation if needed, set the
velocity to the requested movement velocity, face the direction of movement,
then remove `Moving` and insert `Idling` on the same fighter. -/
def moving (anim : Animation) (facing : Facing) (m : Moving) : MovingOut :=
  let anim :=
    if anim.current_animation ≠ some Moving.ANIMATION then
      anim.play Moving.ANIMATION true
    else anim
  let velocity := m.velocity
  let facing :=
    if velocity.x > 0 then Facing.right
    else if velocity.x < 0 then Facing.left
    else facing
  ⟨.idling, anim, facing, velocity⟩

--
-- A two-state (Idling/Moving) fighter pipeline, for the movement claims.
--

/-- The current non-additive state of a fighter in the Idling/Moving
scenario. -/
inductive MIState where
  | isIdling
  | isMoving (m : Moving)
deriving DecidableEq, Repr

/-- Effect of the applied transitions on the current state component for the
Idling/Moving scenario: a non-additive applied transition replaces the current
state with its target (targets outside this scenario's two states are not
reached there and leave the state as is). -/
def applyTransitionsMI (s : MIState) (applied : List StateTransition) : MIState :=
  applied.foldl
    (fun s t =>
      if t.is_additive then s
      else
        match t.target with
        | .idlingS => .isIdling
        | .movingS m => .isMoving m
        | _ => s)
    s

/-- One simulation tick of a player fighter in the Idling/Moving scenario,
following the plugin's stage order: the player-action collector pushes intents
(PreUpdate), then the transition system of the current state resolves the
queue (`Idling` has one, `Moving` does not), then the matching state handler
runs (Update).  Returns the state, queue, animation, facing and velocity at
the end of the tick. -/
def movingIdlingTick (action_state : ActionState) (inventory : Option ItemMeta)
    (movement_speed : ℚ) (current_attack_name : String)
    (s : MIState) (q : List StateTransition) (anim : Animation)
    (facing : Facing) (vel : Vec2) :
    MIState × List StateTransition × Animation × Facing × Vec2 :=
  let q := (collect_player_actions action_state false none inventory
              movement_speed current_attack_name q).1
  let (s, q) :=
    match s with
    | .isIdling =>
      let r := transition_to_higher_priority_states ⟨q⟩ Idling.PRIORITY
      (applyTransitionsMI .isIdling r.applied, r.queue_after)
    | .isMoving m => (.isMoving m, q)
  match s with
  | .isMoving m =>
    let out := moving anim facing m
    (.isIdling, q, out.animation, out.facing, out.velocity)
  | .isIdling =>
    let out := idling anim
    (.isIdling, q, out.1, facing, out.2)

--
-- The chaining handler (`chaining`, lines 941-1068) and its transition
-- system (`transition_from_chain`, lines 589-618).
--

/-- Output of the `chaining` handler for one fighter. -/
structure ChainOut where
  chaining : Chaining
  animation : Animation
  velocity : Vec2
  /-- Number of attack child entities spawned this tick. -/
  attacks_spawned : Nat
deriving DecidableEq, Repr

/-- The `chaining` handler for one player fighter.  `attack_found` is whether
the available-attacks list contains an attack named "chain"; `meta_loaded` is
whether the fighter metadata asset is loaded. -/
def chainingStep (attack_found : Bool) (meta_loaded : Bool)
    (frames : AttackFrames) (facing : Facing) (c : Chaining) (a : Animation)
    (vel : Vec2) : ChainOut :=
  if attack_found then
    let (c, a, spawned) :=
      if meta_loaded && (!c.has_started || (c.continue_chain && c.can_extend)) then
        let (c, a) :=
          if !c.has_started then
            ({ c with has_started := true }, a.play Chaining.ANIMATION false)
          else (c, a)
        let (c, a) :=
          if c.continue_chain then
            let a := a.play Chaining.FOLLOWUP_ANIMATION false
            let a := { a with current_frame := 2 }
            let c := { c with continue_chain := false, link := c.link + 1 }
            let c :=
              if Chaining.LENGTH ≤ c.link then
                { c with transition_to_final := true }
              else c
            (c, a)
          else (c, a)
        ({ c with can_extend := false }, a, 1)
      else (c, a, 0)
    let c := if frames.active < a.current_frame then { c with can_extend := true } else c
    let vel := Vec2.zero
    let vel :=
      if frames.startup < a.current_frame && a.current_frame < frames.recovery then
        if facing.is_left then { vel with x := vel.x - 100 }
        else { vel with x := vel.x + 100 }
      else vel
    let c := if a.is_finished then { c with transition_to_idle := true } else c
    ⟨c, a, vel, spawned⟩
  else
    let c := if a.is_finished then { c with transition_to_idle := true } else c
    ⟨c, a, vel, 0⟩

/-- Exit decision of `transition_from_chain` for one fighter. -/
inductive ChainExit where
  /-- A higher-priority non-additive intent already replaced `Chaining`. -/
  | replaced
  /-- `transition_to_final`: swap `Chaining` for `Flopping::default()`. -/
  | toFlopping
  /-- `transition_to_idle`: swap `Chaining` for `Idling`. -/
  | toIdling
  /-- Stay in `Chaining`. -/
  | stay
deriving DecidableEq, Repr

/-- `transition_from_chain` for one fighter: resolve higher-priority intents
first (`replaced_by_intent` is the resolver's return value); if the state
survived, exit on the chain flags. -/
def transition_from_chain (replaced_by_intent : Bool) (c : Chaining) : ChainExit :=
  if replaced_by_intent then .replaced
  else if c.transition_to_final then .toFlopping
  else if c.transition_to_idle then .toIdling
  else .stay

/-- The state a chaining fighter's current component is in, for the chain
pipeline. -/
inductive ChainPhase where
  | inChain (c : Chaining)
  | inFlopping
  | inIdling
deriving DecidableEq, Repr

/-- One simulation tick of a player fighter running a chain combo, with no
other pending intents: external animation playback first advances the clip by
`adv` frames and sets its finished flag to `fin`; the player-action collector
then flags `continue_chain` when attack is pressed while chaining (the fighter
holds no item); `transition_from_chain` resolves the exit flags; finally the
`chaining` handler runs if the fighter is still chaining. -/
def chainTick (frames : AttackFrames) (press : Bool) (adv : Nat) (fin : Bool) :
    ChainPhase × Animation → ChainPhase × Animation
  | (ph, a) =>
    let a := { a with current_frame := a.current_frame + adv, finished := fin }
    let ph :=
      match ph with
      | .inChain c =>
        if press then ChainPhase.inChain { c with continue_chain := true }
        else ChainPhase.inChain c
      | p => p
    let ph :=
      match ph with
      | .inChain c =>
        match transition_from_chain false c with
        | .toFlopping => ChainPhase.inFlopping
        | .toIdling => ChainPhase.inIdling
        | _ => ChainPhase.inChain c
      | p => p
    match ph with
    | .inChain c =>
      let out := chainingStep true true frames .right c a Vec2.zero
      (.inChain out.chaining, out.animation)
    | p => (p, a)

--
-- The grabbing handler (`grabbing`, lines 1755-1968)
--

/-- Modelled from the spec: the pickup radius `consts::PICK_ITEM_RADIUS` lives
in the crate's `consts` module, which is not among the provided sources; every
claim depends only on whether a fighter is within the radius, never on its
numeric value. -/
def PICK_ITEM_RADIUS : ℚ := 24

/-- Squared Euclidean distance between two points. -/
def distSq (a b : Vec2) : ℚ := (a.x - b.x) ^ 2 + (a.y - b.y) ^ 2

/-- The pickup distance test
`fighter_translation.distance(item_translation) <= consts::PICK_ITEM_RADIUS`,
stated on squares (both sides are non-negative, so this is the same test). -/
def withinPickRadius (a b : Vec2) : Bool :=
  decide (distSq a b ≤ PICK_ITEM_RADIUS ^ 2)

/-- The components of one fighter queried by `grabbing`. -/
structure GrabFighter where
  ent : Entity
  translation : Vec2
  inventory : Option ItemMeta
  intents : List StateTransition
  available_attacks : List AttackMeta
deriving DecidableEq, Repr

/-- The components of one ground item queried by `grabbing`
(`With<Item>`). -/
structure GrabItem where
  ent : Entity
  translation : Vec2
  item_handle : Nat
deriving DecidableEq, Repr

/-- The commands and events issued during a grabbing pass.  `despawned` lists
every entity a `despawn_recursive` command was issued for, in order (and with
multiplicity: commands are deferred, so the same entity can be despawned
twice in one pass); `script_grab_events` are the sent `ScriptItemGrabEvent`s
as (fighter, script handle) pairs; `being_held` are items attached to a
fighter as a held child (`BeingHeld`), as (item, fighter) pairs. -/
structure GrabEffects where
  despawned : List Entity
  script_grab_events : List (Entity × Nat)
  being_held : List (Entity × Entity)
deriving DecidableEq, Repr

/-- No effects yet. -/
def GrabEffects.empty : GrabEffects := ⟨[], [], []⟩

/-- Result of one fighter's scan over the ground items. -/
structure GrabScanResult where
  fighter : GrabFighter
  picked : List Entity
  effects : GrabEffects
deriving DecidableEq, Repr

/-- One fighter's scan over the ground items in `grabbing`: find the first
item not yet claimed this pass and within pickup radius; if the fighter's
inventory is empty, dispatch on the item's kind (Script items fire an event
and despawn without entering the inventory or the claimed set; Throwable and
weapon items are claimed, stored and despawned; BreakableBox and Bomb items
are claimed, stored and attached as a held child plus a `Holding` intent);
the item scan stops (`break`) at that first in-radius item either way.
`items_assets.get(item).unwrap()` aborts when the item metadata is absent. -/
def grabItemScan (assets : Nat → Option ItemMeta) (f : GrabFighter)
    (picked : List Entity) (eff : GrabEffects) :
    List GrabItem → Except String GrabScanResult
  | [] => .ok ⟨f, picked, eff⟩
  | item :: rest =>
    if !picked.contains item.ent &&
        withinPickRadius f.translation item.translation then
      if f.inventory.isNone then
        match assets item.item_handle with
        | none => .error "called `Option::unwrap()` on a `None` value"
        | some meta =>
          match meta.kind with
          | .script s =>
            .ok ⟨f, picked,
                 { eff with
                   script_grab_events := eff.script_grab_events ++ [(f.ent, s)],
                   despawned := eff.despawned ++ [item.ent] }⟩
          | .throwable =>
            .ok ⟨{ f with inventory := some meta }, picked ++ [item.ent],
                 { eff with despawned := eff.despawned ++ [item.ent] }⟩
          | .breakableBox _ =>
            .ok ⟨{ f with inventory := some meta,
                          intents := f.intents ++
                            [⟨.holdingS, Holding.PRIORITY, true⟩] },
                 picked ++ [item.ent],
                 { eff with being_held := eff.being_held ++ [(item.ent, f.ent)] }⟩
          | .bomb _ _ _ =>
            .ok ⟨{ f with inventory := some meta,
                          intents := f.intents ++
                            [⟨.holdingS, Holding.PRIORITY, true⟩] },
                 picked ++ [item.ent],
                 { eff with being_held := eff.being_held ++ [(item.ent, f.ent)] }⟩
          | .meleeWeapon attack =>
            .ok ⟨{ f with inventory := some meta,
                          available_attacks := f.available_attacks ++ [attack] },
                 picked ++ [item.ent],
                 { eff with despawned := eff.despawned ++ [item.ent] }⟩
          | .projectileWeapon attack _ _ =>
            .ok ⟨{ f with inventory := some meta,
                          available_attacks := f.available_attacks ++ [attack] },
                 picked ++ [item.ent],
                 { eff with despawned := eff.despawned ++ [item.ent] }⟩
      else
        .ok ⟨f, picked, eff⟩
    else
      grabItemScan assets f picked eff rest

/-- The fighter loop of `grabbing`, threading the pass-local
`picked_item_ids` set and accumulating effects.  (Each fighter's `Grabbing`
component is also removed at the end of its iteration; `Grabbing` is an
instant state.) -/
def grabbingGo (assets : Nat → Option ItemMeta) (items : List GrabItem) :
    List GrabFighter → List Entity → GrabEffects →
    Except String (List GrabFighter × GrabEffects)
  | [], _, eff => .ok ([], eff)
  | f :: fs, picked, eff =>
    match grabItemScan assets f picked eff items with
    | .error e => .error e
    | .ok r =>
      match grabbingGo assets items fs r.picked r.effects with
      | .error e => .error e
      | .ok (fs2, eff2) => .ok (r.fighter :: fs2, eff2)

/-- The `grabbing` system: one resolution pass over all fighters currently in
the `Grabbing` state, with a fresh pass-local claimed-item set.  The item
query is fixed for the whole pass (despawns are deferred commands). -/
def grabbing (assets : Nat → Option ItemMeta) (fighters : List GrabFighter)
    (items : List GrabItem) :
    Except String (List GrabFighter × GrabEffects) :=
  grabbingGo assets items fighters [] GrabEffects.empty

/-- The inventories after a grabbing pass, in fighter order (empty on
abort). -/
def gains (r : Except String (List GrabFighter × GrabEffects)) :
    List (Option ItemMeta) :=
  match r with
  | .ok (fs, _) => fs.map GrabFighter.inventory
  | .error _ => []

/-- How many times a grabbing pass claimed the given item entity: despawn
commands for it plus held-child attachments of it (on abort, 0). -/
def claimCount (r : Except String (List GrabFighter × GrabEffects))
    (e : Entity) : Nat :=
  match r with
  | .ok (_, eff) => eff.despawned.count e + (eff.being_held.map Prod.fst).count e
  | .error _ => 0

/-- The script-grab events sent during a grabbing pass (empty on abort). -/
def scriptEvents (r : Except String (List GrabFighter × GrabEffects)) :
    List (Entity × Nat) :=
  match r with
  | .ok (_, eff) => eff.script_grab_events
  | .error _ => []

--
-- The flopping handler (`flopping`, lines 812-939)
--

/-- An attack child entity spawned by an attacking handler. -/
structure AttackSpawn where
  offset : Vec2
  damage : Int
  pushback : Vec2
  hitstun_duration : ℚ
deriving DecidableEq, Repr

/-- The attack pushback computed by the handlers:
`(if facing.is_left { NEG_X } else { X }) * attack.velocity.unwrap_or(ZERO)`.
(`Vec2::X * v` multiplies componentwise, zeroing `y`.) -/
def attackPushback (facing : Facing) (attack : AttackMeta) : Vec2 :=
  let v := attack.velocity.getD Vec2.zero
  if facing.is_left then ⟨-1 * v.x, 0 * v.y⟩ else ⟨1 * v.x, 0 * v.y⟩

/-- The hitbox offset mirrored by facing and shifted by the fighter's
collision offset. -/
def hitboxOffset (facing : Facing) (attack : AttackMeta)
    (collision_offset : ℚ) : Vec2 :=
  let offset := attack.hitbox_offset
  let offset := if facing.is_left then { offset with x := offset.x * (-1) } else offset
  { offset with y := offset.y + collision_offset }

/-- Output of the `flopping` handler for one fighter. -/
structure FloppingOut where
  flopping : Flopping
  animation : Animation
  translation_y : ℚ
  velocity : Vec2
  spawned : Option AttackSpawn
  /-- The animation name an `AnimationAudioPlayback` component was attached
  for, if any. -/
  audio : Option String
deriving DecidableEq, Repr

/-- The `flopping` handler for one fighter.  Entities that are neither player
nor enemy are skipped, and — via `if let Some(fighter) = fighter_assets.get(..)`
— a fighter whose metadata asset is not loaded is *silently skipped* for this
tick (no abort): the handler returns with every component unchanged.  The
handler never aborts, which the `Except` return type makes explicit. -/
def flopping (is_player : Bool) (is_enemy : Bool)
    (fighter_assets : Option FighterMeta) (attack : AttackMeta)
    (anim : Animation) (translation_y : ℚ) (velocity : Vec2) (facing : Facing)
    (st : Flopping) : Except String FloppingOut :=
  if !is_player && !is_enemy then
    .ok ⟨st, anim, translation_y, velocity, none, none⟩
  else
    match fighter_assets with
    | none => .ok ⟨st, anim, translation_y, velocity, none, none⟩
    | some fighter =>
      let (st, anim, spawned, audio) :=
        if !st.has_started then
          let st := { st with has_started := true, start_y := translation_y }
          let anim := anim.play Flopping.ANIMATION false
          let spawned := some (AttackSpawn.mk
            (hitboxOffset facing attack fighter.collision_offset)
            attack.damage (attackPushback facing attack) attack.hitstun_duration)
          let audio :=
            if fighter.audio_effects.contains Flopping.ANIMATION then
              some Flopping.ANIMATION
            else none
          (st, anim, spawned, audio)
        else (st, anim, none, none)
      let vel := Vec2.zero
      let vel :=
        if anim.current_frame < attack.frames.recovery then
          if facing.is_left then { vel with x := vel.x - 200 }
          else { vel with x := vel.x + 200 }
        else vel
      let vel :=
        if anim.current_frame < attack.frames.startup then
          { vel with y := vel.y + 200 / (attack.frames.startup : ℚ) }
        else if anim.current_frame < attack.frames.active then
          { vel with y := vel.y -
              200 / ((attack.frames.active - attack.frames.startup : Nat) : ℚ) }
        else vel
      if anim.is_finished then
        .ok ⟨{ st with is_finished := true }, anim, st.start_y, Vec2.zero,
             spawned, audio⟩
      else
        .ok ⟨st, anim, translation_y, vel, spawned, audio⟩

--
-- The projectile_attacking handler (`projectile_attacking`, lines 1168-1216)
--

/-- Output of the `projectile_attacking` handler for one enemy fighter. -/
structure ProjAttackOut where
  proj_attacking : ProjectileAttacking
  animation : Animation
  velocity : Vec2
  /-- Whether a thrown-item projectile was spawned this tick. -/
  spawned_projectile : Bool
deriving DecidableEq, Repr

/-- The `projectile_attacking` handler for one enemy fighter.
`item_assets.get(&attack.item_handle).expect("Fighter has no item")` aborts
the whole system when the attack's item metadata is not loaded — before any
per-state flag is even consulted. -/
def projectile_attacking (item_assets : Option ItemMeta) (attack : AttackMeta)
    (anim : Animation) (st : ProjectileAttacking) :
    Except String ProjAttackOut :=
  match item_assets with
  | none => .error "Fighter has no item"
  | some _item =>
    let (st, anim) :=
      if !st.has_started then
        ({ st with has_started := true },
         anim.play ProjectileAttacking.ANIMATION false)
      else (st, anim)
    let (st, spawned) :=
      if !anim.is_finished then
        if anim.current_frame = attack.frames.startup && !st.thrown then
          ({ st with thrown := true }, true)
        else (st, false)
      else ({ st with is_finished := true }, false)
    .ok ⟨st, anim, Vec2.zero, spawned⟩

--
-- The bomb_throw handler (`bomb_throw`, lines 1343-1469)
--

/-- Output of the `bomb_throw` handler for one boss fighter. -/
structure BombThrowOut where
  bomb_throw : BossBombThrow
  animation : Animation
  velocity : Vec2
  /-- Number of fused bombs spawned this tick (0 or 1). -/
  bombs_spawned : Nat
deriving DecidableEq, Repr

/-- The `bomb_throw` handler for one boss fighter.  A missing *fighter*
metadata asset falls through `if let Some(fighter)` and silently skips the
tick; a missing *item* metadata asset aborts
(`.expect("Fighter has no item")`), and an item whose kind is not `Bomb`
aborts (`.expect("No bomb item found.")`). -/
def bomb_throw (fighter_assets : Option FighterMeta)
    (item_assets : Option ItemMeta) (attack : AttackMeta) (anim : Animation)
    (st : BossBombThrow) (vel : Vec2) : Except String BombThrowOut :=
  match fighter_assets with
  | none => .ok ⟨st, anim, vel, 0⟩
  | some _fighter =>
    match item_assets with
    | none => .error "Fighter has no item"
    | some item =>
      match item.kind with
      | .bomb _ _ _ =>
        let (st, anim) :=
          if !st.has_started then
            ({ st with has_started := true },
             anim.play BossBombThrow.ANIMATION false)
          else (st, anim)
        let (st, n) :=
          if !anim.is_finished then
            if (anim.current_frame = attack.frames.startup && !st.thrown) ||
                (anim.current_frame = attack.frames.active && st.thrown) then
              ({ st with thrown := !st.thrown }, 1)
            else (st, 0)
          else ({ st with is_finished := true }, 0)
        .ok ⟨st, anim, Vec2.zero, n⟩
      | _ => .error "No bomb item found."

--
-- The throwing handler (`throwing`, lines 1556-1752)
--

/-- Output of the `throwing` handler for one fighter (the `Throwing`
component itself is removed at the end of the tick in every case). -/
structure ThrowOut where
  inventory : Option ItemMeta
  spawned_projectile : Bool
  script_throw_event : Bool
  dropped_item : Bool
  attacks_popped : Bool
  holding_removed : Bool
  bomb_launched : Bool
deriving DecidableEq, Repr

/-- The `throwing` handler for one fighter: take the inventory item (if any)
and dispatch on its kind.  The `BreakableBox` branch aborts when the
contained drop item's metadata is not loaded
(`.expect("Drop item not loaded!")`); the `Bomb` branch, when a held child
entity exists, aborts when that child's item metadata is not loaded
(`.expect("Bomb item not found.")`) or is not of `Bomb` kind
(`.expect("Item is not a bomb.")`).  `held_item_meta` is the metadata lookup
for the fighter's held (`BeingHeld`) child entity, `has_held_child` whether
such a child exists. -/
def throwing (items_assets : Nat → Option ItemMeta) (has_held_child : Bool)
    (held_item_meta : Option ItemMeta) (inventory : Option ItemMeta) :
    Except String ThrowOut :=
  match inventory with
  | none => .ok ⟨none, false, false, false, false, false, false⟩
  | some item_meta =>
    match item_meta.kind with
    | .throwable =>
      .ok ⟨none, true, false, false, false, false, false⟩
    | .script _ =>
      .ok ⟨none, false, true, false, false, false, false⟩
    | .breakableBox item_handle =>
      match items_assets item_handle with
      | none => .error "Drop item not loaded!"
      | some _drop =>
        .ok ⟨none, true, false, false, false, true, false⟩
    | .meleeWeapon _ =>
      .ok ⟨none, false, false, true, true, false, false⟩
    | .projectileWeapon _ _ _ =>
      .ok ⟨none, false, false, true, true, false, false⟩
    | .bomb _ _ _ =>
      if has_held_child then
        match held_item_meta with
        | none => .error "Bomb item not found."
        | some held =>
          match held.kind with
          | .bomb _ _ _ =>
            .ok ⟨none, false, false, false, false, true, true⟩
          | _ => .error "Item is not a bomb."
      else
        .ok ⟨none, false, false, false, false, true, false⟩

--
-- Concrete inputs used by the concrete evaluations below
--

/-- A non-additive intent at priority 10 (targets are irrelevant to
resolution). -/
def intentP10 : StateTransition := ⟨.movingS ⟨⟨1, 0⟩⟩, 10, false⟩
/-- A non-additive intent at priority 25. -/
def intentP25 : StateTransition := ⟨.idlingS, 25, false⟩
/-- A non-additive intent at priority 40. -/
def intentP40 : StateTransition :=
  ⟨.hitStunS ⟨⟨2, 0⟩, Timer.from_seconds 1⟩, 40, false⟩
/-- A non-additive intent at priority 5. -/
def intentP5 : StateTransition := ⟨.idlingS, 5, false⟩

/-- A concrete attack metadata record. -/
def demoAttack : AttackMeta :=
  ⟨"flop", 5, some ⟨30, 0⟩, ⟨2, 4, 6⟩, ⟨8, 2⟩, 1/4, 0⟩

/-- The frame windows used in the chain-combo demonstration run
(startup 2, active 4, recovery 6). -/
def chainDemoFrames : AttackFrames := ⟨2, 4, 6⟩

/-- Chain demo, initial configuration: `Chaining::default()` was just applied
to the fighter, the animation track is fresh. -/
def chainDemo0 : ChainPhase × Animation :=
  (.inChain Chaining.default, Animation.fresh)

/-- Chain demo after tick 1: the handler starts the chain (base animation). -/
def chainDemo1 : ChainPhase × Animation :=
  chainTick chainDemoFrames false 0 false chainDemo0

/-- Chain demo after tick 2: the clip has advanced past the active frame, the
player presses attack (first continue request). -/
def chainDemo2 : ChainPhase × Animation :=
  chainTick chainDemoFrames true 5 false chainDemo1

/-- Chain demo after tick 3: the pending continue is honoured (link 1). -/
def chainDemo3 : ChainPhase × Animation :=
  chainTick chainDemoFrames false 0 false chainDemo2

/-- Chain demo after tick 4: past the active frame again, second continue
request. -/
def chainDemo4 : ChainPhase × Animation :=
  chainTick chainDemoFrames true 3 false chainDemo3

/-- Chain demo after tick 5: the second continue is honoured (link 2,
transition-to-final set). -/
def chainDemo5 : ChainPhase × Animation :=
  chainTick chainDemoFrames false 0 false chainDemo4

/-- Chain demo after tick 6: a third continue request is pressed during the
final animation; the transition system swaps `Chaining` for `Flopping` before
the handler can run, so `link` never goes past 2. -/
def chainDemo6 : ChainPhase × Animation :=
  chainTick chainDemoFrames true 0 false chainDemo5

/-- Item-metadata assets for the script-item scenario: handle 0 is a
Script-kind item. -/
def scriptAssets : Nat → Option ItemMeta :=
  fun h => if h = 0 then some ⟨.script 7⟩ else none

/-- Item-metadata assets for the throwable-item scenario: handle 0 is a
Throwable-kind item. -/
def throwableAssets : Nat → Option ItemMeta :=
  fun h => if h = 0 then some ⟨.throwable⟩ else none

/-- A grabbing fighter at the origin with an empty inventory. -/
def grabFighterA : GrabFighter := ⟨1, ⟨0, 0⟩, none, [], []⟩

/-- A second grabbing fighter, also in radius, empty inventory. -/
def grabFighterB : GrabFighter := ⟨2, ⟨3, 4⟩, none, [], []⟩

/-- A ground item at the origin with metadata handle 0. -/
def groundItem : GrabItem := ⟨10, ⟨0, 0⟩, 0⟩

/-- A grabbing fighter whose inventory slot is already occupied. -/
def grabFighterFullA : GrabFighter := ⟨1, ⟨0, 0⟩, some ⟨.throwable⟩, [], []⟩

/-- A second grabbing fighter with an occupied inventory slot. -/
def grabFighterFullB : GrabFighter := ⟨2, ⟨3, 4⟩, some ⟨.throwable⟩, [], []⟩

--
-- Theorems
--

/-- Every transition the scanning loop applies has priority strictly above
the current state's priority. -/
theorem applyIntents_mem_lt (p : Int) :
    ∀ l : List StateTransition, ∀ t ∈ (applyIntents p l).1, p < t.priority := by
  intro l
  induction l with
  | nil => intro t ht; simp [applyIntents] at ht
  | cons h rest ih =>
    intro t ht
    by_cases hp : p < h.priority
    · by_cases ha : h.is_additive = true
      · simp [applyIntents, hp, ha] at ht
        rcases ht with rfl | ht
        · exact hp
        · exact ih t ht
      · simp [applyIntents, hp, ha] at ht
        subst ht
        exact hp
    · simp [applyIntents, hp] at ht
      exact ih t ht

/-- The scanning loop's return flag is exactly "some applied transition was
non-additive". -/
theorem applyIntents_snd_any (p : Int) :
    ∀ l : List StateTransition,
      (applyIntents p l).2 = (applyIntents p l).1.any fun t => !t.is_additive := by
  intro l
  induction l with
  | nil => simp [applyIntents]
  | cons h rest ih =>
    by_cases hp : p < h.priority
    · by_cases ha : h.is_additive = true
      · simp [applyIntents, hp, ha, ih]
      · simp [applyIntents, hp, ha]
    · simp [applyIntents, hp, ih]

/-- The scanning loop applies at most one non-additive transition. -/
theorem applyIntents_countP_le_one (p : Int) :
    ∀ l : List StateTransition,
      ((applyIntents p l).1.countP fun t => !t.is_additive) ≤ 1 := by
  intro l
  induction l with
  | nil => simp [applyIntents]
  | cons h rest ih =>
    by_cases hp : p < h.priority
    · by_cases ha : h.is_additive = true
      · simpa [applyIntents, hp, ha, List.countP_cons] using ih
      · simp [applyIntents, hp, ha, List.countP_cons]
    · simpa [applyIntents, hp] using ih

/-- On a descending-sorted list whose priorities are bounded by
`Dying::PRIORITY`, a pending non-additive intent at `Dying::PRIORITY` forces
a replacement, and the replacement set contains a non-additive transition at
exactly `Dying::PRIORITY`. -/
theorem applyIntents_dying (p : Int) :
    ∀ l : List StateTransition, List.Sorted prioGE l →
      (∀ t ∈ l, t.priority ≤ Dying.PRIORITY) →
      ∀ d ∈ l, d.is_additive = false → d.priority = Dying.PRIORITY →
      p < Dying.PRIORITY →
      (applyIntents p l).2 = true ∧
        ∃ t ∈ (applyIntents p l).1,
          t.is_additive = false ∧ t.priority = Dying.PRIORITY := by
  intro l
  induction l with
  | nil => intro _ _ d hd; simp at hd
  | cons h rest ih =>
    intro hsort hbound d hd hadd hprio hp
    rw [List.sorted_cons] at hsort
    obtain ⟨hhd, hrest⟩ := hsort
    have hhprio : h.priority = Dying.PRIORITY := by
      rcases List.mem_cons.mp hd with rfl | hdrest
      · exact hprio
      · have h1 : d.priority ≤ h.priority := hhd d hdrest
        have h2 : h.priority ≤ Dying.PRIORITY := hbound h (List.mem_cons_self h rest)
        omega
    have hph : p < h.priority := hhprio ▸ hp
    by_cases ha : h.is_additive = true
    · have hne : d ≠ h := fun he => by rw [he, ha] at hadd; exact Bool.noConfusion hadd
      have hdrest : d ∈ rest := by
        rcases List.mem_cons.mp hd with rfl | hdrest
        · exact absurd rfl hne
        · exact hdrest
      obtain ⟨hsnd, t, htmem, htprops⟩ :=
        ih hrest (fun t ht => hbound t (List.mem_cons_of_mem h ht)) d hdrest hadd hprio hp
      refine ⟨?_, ⟨t, ?_, htprops⟩⟩
      · simpa [applyIntents, hph, ha] using hsnd
      · simp only [applyIntents, if_pos hph, ha, if_pos rfl]
        exact List.mem_cons_of_mem h htmem
    · refine ⟨?_, ⟨h, ?_, ?_, hhprio⟩⟩
      · simp [applyIntents, hph, ha]
      · simp [applyIntents, hph, ha]
      · simpa using ha

/-- Sorting the drained intents does not change which intents are present. -/
theorem mem_sortIntents {t : StateTransition} {l : List StateTransition} :
    t ∈ sortIntents l ↔ t ∈ l :=
  List.mem_insertionSort prioGE

/-- The drained intents are sorted descending by priority. -/
theorem sorted_sortIntents (l : List StateTransition) :
    List.Sorted prioGE (sortIntents l) :=
  List.sorted_insertionSort prioGE l

/-- C1.  Priority monotonicity of intent resolution: for every current-state
priority and every queue of intents collected in one tick, (i) every applied
transition has priority strictly greater than the current state's priority
(so resolution either leaves the current state in place or replaces it by a
strictly higher-priority state); (ii) when no replacement is reported, every
applied transition was additive and the current state remains in place; and
(iii) a pending `Dying` intent (priority 1000, non-additive) against any
current state of lower priority — all collector-issued intents have priority
at most 1000 — forces a replacement by a non-additive transition at exactly
priority 1000. -/
theorem intent_resolution_priority_monotonic (p : Int) (q : StateTransitionIntents) :
    (∀ t ∈ (transition_to_higher_priority_states q p).applied, p < t.priority) ∧
    ((transition_to_higher_priority_states q p).replaced = false →
      ∀ t ∈ (transition_to_higher_priority_states q p).applied,
        t.is_additive = true) ∧
    (dyingTransition ∈ q.queue →
      (∀ t ∈ q.queue, t.priority ≤ Dying.PRIORITY) →
      p < Dying.PRIORITY →
      (transition_to_higher_priority_states q p).replaced = true ∧
        ∃ t ∈ (transition_to_higher_priority_states q p).applied,
          t.is_additive = false ∧ t.priority = Dying.PRIORITY) := by
  refine ⟨?_, ?_, ?_⟩
  · intro t ht
    exact applyIntents_mem_lt p (sortIntents q.queue) t ht
  · intro hrep t ht
    have hany : ((applyIntents p (sortIntents q.queue)).1.any
        fun t => !t.is_additive) = false :=
      (applyIntents_snd_any p (sortIntents q.queue)).symm.trans hrep
    have := List.any_eq_false.mp hany t ht
    simpa using this
  · intro hd hb hp
    exact applyIntents_dying p (sortIntents q.queue) (sorted_sortIntents _)
      (fun t ht => hb t (mem_sortIntents.mp ht)) dyingTransition
      (mem_sortIntents.mpr hd) rfl rfl hp

/-- C1, witness: against an `Idling` fighter (priority 0) with a single
pending `Dying` intent, resolution replaces the state with the priority-1000
non-additive transition. -/
theorem intent_resolution_priority_monotonic_witness :
    (transition_to_higher_priority_states ⟨[dyingTransition]⟩ Idling.PRIORITY).replaced
        = true ∧
      ∃ t ∈ (transition_to_higher_priority_states ⟨[dyingTransition]⟩
          Idling.PRIORITY).applied,
        t.is_additive = false ∧ t.priority = Dying.PRIORITY :=
  (intent_resolution_priority_monotonic Idling.PRIORITY ⟨[dyingTransition]⟩).2.2
    (by simp) (by intro t ht; simp at ht; subst ht; decide) (by decide)

/-- C2.  At most one non-additive transition per resolve call: concretely,
non-additive intents at priorities [10, 25, 40, 5] against a current state at
priority 20 result in exactly one applied transition — the priority-40 one —
with the "current state replaced" flag set; in general, the drained intents
are sorted descending by priority, at most one applied transition is
non-additive (the scan stops at the first non-additive application), and the
reported flag is exactly "a non-additive transition was applied". -/
theorem at_most_one_nonadditive_transition :
    transition_to_higher_priority_states
        ⟨[intentP10, intentP25, intentP40, intentP5]⟩ 20 =
      ⟨[], [intentP40], true⟩ ∧
    ∀ (p : Int) (q : StateTransitionIntents),
      List.Sorted prioGE (sortIntents q.queue) ∧
      ((transition_to_higher_priority_states q p).applied.countP
        fun t => !t.is_additive) ≤ 1 ∧
      (transition_to_higher_priority_states q p).replaced =
        ((transition_to_higher_priority_states q p).applied.any
          fun t => !t.is_additive) := by
  refine ⟨by decide, fun p q => ⟨sorted_sortIntents q.queue, ?_, ?_⟩⟩
  · exact applyIntents_countP_le_one p (sortIntents q.queue)
  · exact applyIntents_snd_any p (sortIntents q.queue)

/-- C3, counterexample: the plugin (`FighterStatePlugin::build`) registers no
transition system for the `Dying` state, so the intent queue of a fighter
whose current state is `Dying` is never resolved: a pending intent persists
across the tick, refuting "every fighter's queue is resolved every tick,
whatever its current state". -/
theorem dying_queue_never_resolved :
    hasTransitionSystem StateTag.dying = false ∧
    tickResolveQueue StateTag.dying ⟨[dyingTransition]⟩ = ⟨[dyingTransition]⟩ ∧
    (⟨[dyingTransition]⟩ : StateTransitionIntents) ≠ ⟨[]⟩ := by
  decide

/-- C3, amended.  Every resolve call drains the queue completely, so after a
resolve the fighter's intent queue is empty regardless of how many intents
were pending; and intents never persist into the next tick for fighters whose
current state has a registered transition system — that is every non-additive
state except `Moving` (whose handler always swaps back to `Idling` before the
next resolution pass) and `Dying`, which has no transition system, so a dying
fighter's pending intents are never drained (until the entity despawns). -/
theorem queue_drains_every_resolve :
    (∀ (q : StateTransitionIntents) (p : Int),
      (transition_to_higher_priority_states q p).queue_after = []) ∧
    (∀ (tag : StateTag) (q : StateTransitionIntents),
      hasTransitionSystem tag = true → tickResolveQueue tag q = ⟨[]⟩) ∧
    hasTransitionSystem StateTag.dying = false ∧
    hasTransitionSystem StateTag.moving = false ∧
    (∀ q : StateTransitionIntents, tickResolveQueue StateTag.dying q = q) := by
  refine ⟨fun q p => rfl, fun tag q h => ?_, by decide, by decide, fun q => rfl⟩
  simp [tickResolveQueue, h]

/-- C3, witness: an `Idling` fighter has a transition system, and its pending
queue is drained by the tick's resolution. -/
theorem queue_drains_every_resolve_witness :
    hasTransitionSystem StateTag.idling = true ∧
    tickResolveQueue StateTag.idling ⟨[dyingTransition]⟩ = ⟨[]⟩ :=
  ⟨rfl, queue_drains_every_resolve.2.1 StateTag.idling ⟨[dyingTransition]⟩ rfl⟩

/-- C4.  Hitstun collector behaviour: for a damage event whose target is a
fighter, a zero hitstun duration enqueues nothing at all; otherwise exactly
one `HitStun` intent is appended to that fighter's queue — and no other
queue — carrying pushback equal to the event's knockback vector and a
one-shot timer of the event's hitstun duration, non-additive, at priority
`HitStun::PRIORITY = 40`. -/
theorem hitstun_collector_behaviour (isFighter : Entity → Bool)
    (queues : Entity → List StateTransition) (ev : DamageEvent)
    (hF : isFighter ev.damaged_entity = true) :
    (ev.hitstun_duration = 0 → collect_hitstuns isFighter queues [ev] = queues) ∧
    (ev.hitstun_duration ≠ 0 →
      collect_hitstuns isFighter queues [ev] ev.damaged_entity =
        queues ev.damaged_entity ++ [hitstunTransition ev] ∧
      (∀ e, e ≠ ev.damaged_entity →
        collect_hitstuns isFighter queues [ev] e = queues e) ∧
      hitstunTransition ev =
        ⟨.hitStunS ⟨ev.damage_velocity, ⟨ev.hitstun_duration, 0⟩⟩, 40, false⟩) := by
  constructor
  · intro h0
    simp [collect_hitstuns, hF, h0]
  · intro hne
    refine ⟨?_, ?_, rfl⟩
    · simp [collect_hitstuns, hF, hne]
    · intro e he
      simp [collect_hitstuns, hF, hne, he]

/-- C4, witness: a damage event with knockback (1, 2) and hitstun duration 3
against fighter 5 appends exactly the expected `HitStun` intent to queue 5. -/
theorem hitstun_collector_behaviour_witness :
    (3 : ℚ) ≠ 0 ∧
    collect_hitstuns (fun _ => true) (fun _ => []) [⟨5, ⟨1, 2⟩, 3⟩] 5 =
      [] ++ [hitstunTransition ⟨5, ⟨1, 2⟩, 3⟩] :=
  ⟨by norm_num,
   ((hitstun_collector_behaviour (fun _ => true) (fun _ => [])
      ⟨5, ⟨1, 2⟩, 3⟩ rfl).2 (by norm_num)).1⟩

/-- C10.  Unrecognised attack names are a silent no-op: when a player presses
attack while holding no item and not chaining, and the current attack's name
is none of "chain", "punch", "flop", "melee", "projectile", the collector
behaves exactly as if attack had not been pressed: no transition intent is
enqueued by the press and the chaining component is untouched. -/
theorem unrecognised_attack_silent_noop (action_state : ActionState)
    (inventory : Option ItemMeta) (movement_speed : ℚ) (name : String)
    (q : List StateTransition)
    (h1 : name ≠ "chain") (h2 : name ≠ "punch") (h3 : name ≠ "flop")
    (h4 : name ≠ "melee") (h5 : name ≠ "projectile") :
    collect_player_actions action_state false none inventory movement_speed
        name q =
      collect_player_actions { action_state with attack_just_pressed := false }
        false none inventory movement_speed name q := by
  cases ha : action_state.attack_just_pressed <;>
    simp [collect_player_actions, ha, h1, h2, h3, h4, h5]

/-- C10, witness: pressing attack with current attack name "slam" produces
the same result as not pressing it. -/
theorem unrecognised_attack_silent_noop_witness :
    collect_player_actions ⟨true, false, false, ⟨0, 0⟩⟩ false none none 1
        "slam" [] =
      collect_player_actions ⟨false, false, false, ⟨0, 0⟩⟩ false none none 1
        "slam" [] :=
  unrecognised_attack_silent_noop ⟨true, false, false, ⟨0, 0⟩⟩ none 1 "slam" []
    (by decide) (by decide) (by decide) (by decide) (by decide)

/-- C6.  Movement requires continuous input: every tick the `moving` handler
runs it applies the requested velocity to the fighter, faces the direction of
movement, and removes `Moving`, inserting `Idling`, on that same fighter; in
the two-tick pipeline a fighter that is `Idling` with a `Moving` intent
collected in tick N ends tick N in `Idling` having moved with the requested
velocity (direction times movement speed), and with no `Moving` intent in
tick N+1 it ends tick N+1 still in `Idling` with zero velocity — sustained
movement happens only while the collector re-enqueues `Moving` every tick. -/
theorem movement_requires_continuous_input :
    (∀ (anim : Animation) (facing : Facing) (m : Moving),
      (moving anim facing m).state_inserted = StateTag.idling ∧
      (moving anim facing m).velocity = m.velocity ∧
      (moving anim facing m).facing =
        (if m.velocity.x > 0 then Facing.right
         else if m.velocity.x < 0 then Facing.left else facing)) ∧
    (∀ (dir : Vec2) (speed : ℚ) (inv : Option ItemMeta) (anim : Animation)
        (facing : Facing) (vel : Vec2),
      -- tick N: "move held" input, so the collector enqueues Moving
      (movingIdlingTick ⟨false, false, true, dir⟩ inv speed "punch"
          .isIdling [] anim facing vel).1 = .isIdling ∧
      (movingIdlingTick ⟨false, false, true, dir⟩ inv speed "punch"
          .isIdling [] anim facing vel).2.2.2.2 = dir.scale speed ∧
      (movingIdlingTick ⟨false, false, true, dir⟩ inv speed "punch"
          .isIdling [] anim facing vel).2.1 = [] ∧
      -- tick N+1: no input at all, so no Moving intent is collected
      (∀ (anim2 : Animation) (facing2 : Facing) (vel2 : Vec2),
        (movingIdlingTick ⟨false, false, false, dir⟩ inv speed "punch"
            .isIdling [] anim2 facing2 vel2).1 = .isIdling ∧
        (movingIdlingTick ⟨false, false, false, dir⟩ inv speed "punch"
            .isIdling [] anim2 facing2 vel2).2.2.2.2 = Vec2.zero)) := by
  refine ⟨fun anim facing m => ⟨rfl, rfl, rfl⟩, ?_⟩
  intro dir speed inv anim facing vel
  exact ⟨rfl, rfl, rfl, fun anim2 facing2 vel2 => ⟨rfl, rfl⟩⟩

/-- C5.  Chain combo termination: (i) every honoured "continue" request
(`continue_chain` set while `can_extend` holds, chain already started)
increments `link` by exactly 1; (ii) the combo length is fixed at 2;
(iii) in the concrete run starting from `Chaining::default()` (link 0), two
consecutive honoured continues drive `link` to 2 and set `transition_to_final`;
(iv) `transition_from_chain` then swaps `Chaining` for `Flopping`; (v) a third
continue request pressed during the final animation is swallowed by that swap
— the handler never runs again, so `link` never exceeds 2; (vi) when no
continuation is pending and the animation finishes, the handler flags the
transition to idle. -/
theorem chain_combo_termination :
    (∀ (frames : AttackFrames) (facing : Facing) (c : Chaining)
        (a : Animation) (vel : Vec2),
      c.has_started = true → c.continue_chain = true → c.can_extend = true →
      (chainingStep true true frames facing c a vel).chaining.link = c.link + 1) ∧
    Chaining.LENGTH = 2 ∧
    chainDemo5 = (.inChain ⟨true, false, false, true, false, 2⟩,
      ⟨some "followup", 2, false, false⟩) ∧
    (∀ c : Chaining, c.transition_to_final = true →
      transition_from_chain false c = .toFlopping) ∧
    chainDemo6 = (.inFlopping, ⟨some "followup", 2, false, false⟩) ∧
    (∀ (attack_found meta_loaded : Bool) (frames : AttackFrames)
        (facing : Facing) (c : Chaining) (a : Animation) (vel : Vec2),
      c.has_started = true → c.continue_chain = false → a.finished = true →
      (chainingStep attack_found meta_loaded frames facing c a
        vel).chaining.transition_to_idle = true) := by
  refine ⟨?_, rfl, rfl, ?_, rfl, ?_⟩
  · intro frames facing c a vel h1 h2 h3
    simp [chainingStep, h1, h2, h3, Animation.play, Animation.is_finished]
    split <;> split <;> rfl
  · intro c h
    simp [transition_from_chain, h]
  · intro attack_found meta_loaded frames facing c a vel h1 h2 h3
    cases attack_found <;>
      simp [chainingStep, h1, h2, h3, Animation.is_finished]

/-- C5, witness: a started chain with a pending honoured continue at link 0
reaches link 1; a started chain whose animation has finished with no pending
continue flags the idle transition; a chain flagged transition-to-final is
swapped for `Flopping` by the transition system. -/
theorem chain_combo_termination_witness :
    (chainingStep true true chainDemoFrames .right ⟨true, true, true, false,
        false, 0⟩ Animation.fresh Vec2.zero).chaining.link = 0 + 1 ∧
    (chainingStep true true chainDemoFrames .right ⟨true, false, false, false,
        false, 2⟩ ⟨some "chaining", 6, true, false⟩ Vec2.zero).chaining.transition_to_idle
        = true ∧
    transition_from_chain false ⟨true, false, false, true, false, 2⟩ =
      .toFlopping :=
  ⟨chain_combo_termination.1 chainDemoFrames .right _ Animation.fresh Vec2.zero
      rfl rfl rfl,
   chain_combo_termination.2.2.2.2.2 true true chainDemoFrames .right _ _
      Vec2.zero rfl rfl rfl,
   chain_combo_termination.2.2.2.1 _ rfl⟩

/-- C9.  Script-kind items bypass both inventory and deduplication during
grabbing: a grabbing fighter with an empty inventory within pickup radius of
a Script-kind item sends a `ScriptItemGrabEvent` and despawns the item
entity, but never stores the item in its inventory slot and never inserts the
item into the pass-local picked set — so a second grabbing fighter in the
same pass matches the same Script item (a second event and a second despawn
of the same entity). -/
theorem script_items_bypass_inventory_and_dedup
    (assets : Nat → Option ItemMeta) (f1 f2 : GrabFighter) (i : GrabItem)
    (meta : ItemMeta) (s : Nat)
    (h1 : f1.inventory = none) (h2 : f2.inventory = none)
    (hw1 : withinPickRadius f1.translation i.translation = true)
    (hw2 : withinPickRadius f2.translation i.translation = true)
    (hm : assets i.item_handle = some meta) (hk : meta.kind = .script s) :
    grabItemScan assets f1 [] GrabEffects.empty [i] =
      .ok ⟨f1, [], ⟨[i.ent], [(f1.ent, s)], []⟩⟩ ∧
    grabbing assets [f1, f2] [i] =
      .ok ([f1, f2], ⟨[i.ent, i.ent], [(f1.ent, s), (f2.ent, s)], []⟩) := by
  constructor
  · simp [grabItemScan, hw1, h1, hm, hk, GrabEffects.empty]
  · simp [grabbing, grabbingGo, grabItemScan, hw1, hw2, h1, h2, hm, hk,
      GrabEffects.empty]

/-- C9, witness: two empty-handed fighters, one Script item (handle 0,
script 7) in radius of both: fighter 1's scan leaves the picked set empty,
and the full pass sends two grab events and issues two despawns, with both
inventories still empty. -/
theorem script_items_bypass_inventory_and_dedup_witness :
    grabItemScan scriptAssets grabFighterA [] GrabEffects.empty [groundItem] =
      .ok ⟨grabFighterA, [], ⟨[groundItem.ent], [(grabFighterA.ent, 7)], []⟩⟩ ∧
    grabbing scriptAssets [grabFighterA, grabFighterB] [groundItem] =
      .ok ([grabFighterA, grabFighterB],
        ⟨[groundItem.ent, groundItem.ent],
         [(grabFighterA.ent, 7), (grabFighterB.ent, 7)], []⟩) :=
  script_items_bypass_inventory_and_dedup scriptAssets grabFighterA
    grabFighterB groundItem ⟨.script 7⟩ 7 rfl rfl
    (by norm_num [withinPickRadius, distSq, PICK_ITEM_RADIUS, grabFighterA,
      groundItem])
    (by norm_num [withinPickRadius, distSq, PICK_ITEM_RADIUS, grabFighterB,
      groundItem])
    rfl rfl

/-- C7, counterexample.  "Exactly one fighter's inventory gains the item and
the item entity is removed exactly once" fails at concrete inputs: (i) for a
Script-kind ground item with both fighters in radius and both inventories
empty, NO inventory gains the item and the item entity is despawned twice;
(ii) for a Throwable ground item when both fighters' inventory slots are
already occupied, no fighter claims the item at all (zero removals) — the
first-encountered fighter does not win. -/
theorem grab_dedup_counterexample :
    gains (grabbing scriptAssets [grabFighterA, grabFighterB] [groundItem]) =
      [none, none] ∧
    claimCount (grabbing scriptAssets [grabFighterA, grabFighterB] [groundItem])
      groundItem.ent = 2 ∧
    gains (grabbing throwableAssets [grabFighterFullA, grabFighterFullB]
      [groundItem]) = [some ⟨.throwable⟩, some ⟨.throwable⟩] ∧
    claimCount (grabbing throwableAssets [grabFighterFullA, grabFighterFullB]
      [groundItem]) groundItem.ent = 0 := by
  have hw00 : withinPickRadius ⟨0, 0⟩ ⟨0, 0⟩ = true := by
    norm_num [withinPickRadius, distSq, PICK_ITEM_RADIUS]
  have hw34 : withinPickRadius ⟨3, 4⟩ ⟨0, 0⟩ = true := by
    norm_num [withinPickRadius, distSq, PICK_ITEM_RADIUS]
  refine ⟨?_, ?_, ?_, ?_⟩ <;>
    simp [gains, claimCount, grabbing, grabbingGo, grabItemScan, scriptAssets,
      throwableAssets, grabFighterA, grabFighterB, grabFighterFullA,
      grabFighterFullB, groundItem, hw00, hw34, GrabEffects.empty]

/-- C7, amended.  Grab deduplication, for claimable items: when two fighters
in the `Grabbing` state, both with empty inventory slots, are within pickup
radius of the same single ground item whose loaded metadata is of any
non-Script kind, exactly one fighter's inventory gains the item and the item
entity is claimed exactly once (despawned, or attached as a held child, once);
the pass-local claimed set enforces this, and the first-encountered fighter
in iteration order wins. -/
theorem grab_dedup_amended (assets : Nat → Option ItemMeta)
    (f1 f2 : GrabFighter) (i : GrabItem) (meta : ItemMeta)
    (h1 : f1.inventory = none) (h2 : f2.inventory = none)
    (hw1 : withinPickRadius f1.translation i.translation = true)
    (hw2 : withinPickRadius f2.translation i.translation = true)
    (hm : assets i.item_handle = some meta)
    (hk : ∀ s, meta.kind ≠ .script s) :
    gains (grabbing assets [f1, f2] [i]) = [some meta, none] ∧
    claimCount (grabbing assets [f1, f2] [i]) i.ent = 1 ∧
    scriptEvents (grabbing assets [f1, f2] [i]) = [] := by
  cases hkind : meta.kind with
  | script s => exact absurd hkind (hk s)
  | _ =>
    refine ⟨?_, ?_, ?_⟩ <;>
      simp [grabbing, grabbingGo, grabItemScan, gains, claimCount, scriptEvents,
        h1, h2, hw1, hw2, hm, hkind, GrabEffects.empty]

/-- C7, witness: two empty-handed fighters in radius of one Throwable ground
item: the first fighter's inventory gains it, the second's stays empty, and
the item is claimed exactly once. -/
theorem grab_dedup_amended_witness :
    gains (grabbing throwableAssets [grabFighterA, grabFighterB] [groundItem]) =
      [some ⟨.throwable⟩, none] ∧
    claimCount (grabbing throwableAssets [grabFighterA, grabFighterB]
      [groundItem]) groundItem.ent = 1 ∧
    scriptEvents (grabbing throwableAssets [grabFighterA, grabFighterB]
      [groundItem]) = [] :=
  grab_dedup_amended throwableAssets grabFighterA grabFighterB groundItem
    ⟨.throwable⟩ rfl rfl
    (by norm_num [withinPickRadius, distSq, PICK_ITEM_RADIUS, grabFighterA,
      groundItem])
    (by norm_num [withinPickRadius, distSq, PICK_ITEM_RADIUS, grabFighterB,
      groundItem])
    rfl (fun _ h => ItemKind.noConfusion h)

/-- C8, counterexample.  "Every state handler that requires fighter or item
metadata (flopping, projectile_attacking, bomb_throw, throwing, grabbing)
terminates the operation abruptly when it is absent" is false at `flopping`:
with the fighter metadata asset absent, `flopping` falls through
`if let Some(fighter) = fighter_assets.get(..)` and silently skips the tick
for that entity — every component is left unchanged and nothing aborts, so
the attack simply retries next tick (`has_started` is still false). -/
theorem missing_metadata_flopping_skips :
    flopping true false none demoAttack Animation.fresh 3 ⟨1, 2⟩ .right
        Flopping.default =
      .ok ⟨Flopping.default, Animation.fresh, 3, ⟨1, 2⟩, none, none⟩ := rfl

/-- C8, amended.  Missing metadata behaviour per handler: `flopping` (fighter
metadata) and `bomb_throw` (fighter metadata) silently skip the entity's tick
and retry; `projectile_attacking` (item metadata), `bomb_throw` (item
metadata absent, or item not of Bomb kind), `throwing` (BreakableBox drop
metadata absent; held bomb child's metadata absent or not of Bomb kind) and
`grabbing` (in-radius item metadata absent) terminate the operation
abruptly. -/
theorem missing_metadata_handlers_amended :
    (∀ (ip ie : Bool) (attack : AttackMeta) (anim : Animation) (ty : ℚ)
        (vel : Vec2) (facing : Facing) (st : Flopping),
      flopping ip ie none attack anim ty vel facing st =
        .ok ⟨st, anim, ty, vel, none, none⟩) ∧
    (∀ (attack : AttackMeta) (anim : Animation) (st : ProjectileAttacking),
      projectile_attacking none attack anim st =
        .error "Fighter has no item") ∧
    (∀ (im : Option ItemMeta) (attack : AttackMeta) (anim : Animation)
        (st : BossBombThrow) (vel : Vec2),
      bomb_throw none im attack anim st vel = .ok ⟨st, anim, vel, 0⟩) ∧
    (∀ (fm : FighterMeta) (attack : AttackMeta) (anim : Animation)
        (st : BossBombThrow) (vel : Vec2),
      bomb_throw (some fm) none attack anim st vel =
        .error "Fighter has no item") ∧
    (∀ (fm : FighterMeta) (item : ItemMeta) (attack : AttackMeta)
        (anim : Animation) (st : BossBombThrow) (vel : Vec2),
      (∀ l g tv, item.kind ≠ .bomb l g tv) →
      bomb_throw (some fm) (some item) attack anim st vel =
        .error "No bomb item found.") ∧
    (∀ (assets : Nat → Option ItemMeta) (hh : Bool) (hm : Option ItemMeta)
        (h : Nat), assets h = none →
      throwing assets hh hm (some ⟨.breakableBox h⟩) =
        .error "Drop item not loaded!") ∧
    (∀ (assets : Nat → Option ItemMeta) (l g : ℚ) (tv : Vec2),
      throwing assets true none (some ⟨.bomb l g tv⟩) =
        .error "Bomb item not found.") ∧
    (∀ (assets : Nat → Option ItemMeta) (held : ItemMeta) (l g : ℚ)
        (tv : Vec2),
      (∀ l2 g2 tv2, held.kind ≠ .bomb l2 g2 tv2) →
      throwing assets true (some held) (some ⟨.bomb l g tv⟩) =
        .error "Item is not a bomb.") ∧
    (∀ (assets : Nat → Option ItemMeta) (f : GrabFighter) (i : GrabItem),
      f.inventory = none →
      withinPickRadius f.translation i.translation = true →
      assets i.item_handle = none →
      grabItemScan assets f [] GrabEffects.empty [i] =
        .error "called `Option::unwrap()` on a `None` value") := by
  refine ⟨?_, fun _ _ _ => rfl, fun _ _ _ _ _ => rfl, fun _ _ _ _ _ => rfl,
    ?_, ?_, fun _ _ _ _ => rfl, ?_, ?_⟩
  · intro ip ie attack anim ty vel facing st
    cases ip <;> cases ie <;> rfl
  · intro fm item attack anim st vel hk
    cases hkind : item.kind with
    | bomb l g tv => exact absurd hkind (hk l g tv)
    | _ => simp [bomb_throw, hkind]
  · intro assets hh hm h ha
    simp [throwing, ha]
  · intro assets held l g tv hk
    cases hkind : held.kind with
    | bomb l2 g2 tv2 => exact absurd hkind (hk l2 g2 tv2)
    | _ => simp [throwing, hkind]
  · intro assets f i h1 hw hm
    simp [grabItemScan, h1, hw, hm]

/-- C8, witness: concrete instances of each branch — flopping skips with
everything unchanged; the other handlers abort with their respective panic
messages. -/
theorem missing_metadata_handlers_amended_witness :
    flopping true false none demoAttack Animation.fresh 0 Vec2.zero .right
        Flopping.default =
      .ok ⟨Flopping.default, Animation.fresh, 0, Vec2.zero, none, none⟩ ∧
    projectile_attacking none demoAttack Animation.fresh
        ⟨false, false, false⟩ = .error "Fighter has no item" ∧
    bomb_throw (some ⟨0, []⟩) (some ⟨.throwable⟩) demoAttack Animation.fresh
        ⟨false, false, false⟩ Vec2.zero = .error "No bomb item found." ∧
    throwing (fun _ => none) false none (some ⟨.breakableBox 3⟩) =
      .error "Drop item not loaded!" ∧
    throwing (fun _ => none) true (some ⟨.throwable⟩)
        (some ⟨.bomb 1 2 ⟨3, 4⟩⟩) = .error "Item is not a bomb." ∧
    grabItemScan (fun _ => none) grabFighterA [] GrabEffects.empty
        [groundItem] = .error "called `Option::unwrap()` on a `None` value" :=
  ⟨missing_metadata_handlers_amended.1 true false demoAttack Animation.fresh 0
      Vec2.zero .right Flopping.default,
   missing_metadata_handlers_amended.2.1 demoAttack Animation.fresh _,
   missing_metadata_handlers_amended.2.2.2.2.1 ⟨0, []⟩ ⟨.throwable⟩ demoAttack
      Animation.fresh ⟨false, false, false⟩ Vec2.zero
      (fun _ _ _ h => ItemKind.noConfusion h),
   missing_metadata_handlers_amended.2.2.2.2.2.1 (fun _ => none) false none 3
      rfl,
   missing_metadata_handlers_amended.2.2.2.2.2.2.2.1 (fun _ => none)
      ⟨.throwable⟩ 1 2 ⟨3, 4⟩ (fun _ _ _ h => ItemKind.noConfusion h),
   missing_metadata_handlers_amended.2.2.2.2.2.2.2.2 (fun _ => none)
      grabFighterA groundItem rfl
      (by norm_num [withinPickRadius, distSq, PICK_ITEM_RADIUS, grabFighterA,
        groundItem])
      rfl⟩
